import Mathlib

/-!
Verification development for the Korrent resilient multi-source torrent
search resolver.  The definitions below are a shallow embedding of the two
resolver backends:

* `torrent_gui_app/api_client.py` — the aggregator (GraphQL) backend:
  request-parameter mapping, the record/error decision rule of `search`,
  the response normalizer `_convert_torrent` and `_format_size`.
* `torrent_gui_app/custom_1337x.py` — the direct-scrape backend:
  the endpoint rotation pool (`ALTERNATIVE_DOMAINS`, `_rotate_domain`),
  the retry loops of `search` and `info`, and the minimal placeholder
  record built when every endpoint fails.

Python's dynamically-typed JSON values are modelled by `PyVal`; a Python
`dict.get(key, default)` over an optional field is `Option PyVal` plus
`pyGet`.  Python float division is modelled by exact rational arithmetic
(the values exercised by the specification are exactly representable, so
the models agree there).  Code that can raise is modelled in `Except`.
-/

namespace Korrent

/-- A Python/JSON value as it appears in a decoded GraphQL response:
`None`, a string, an integer, or a list. -/
inductive PyVal where
  | pyNone : PyVal
  | str (s : String) : PyVal
  | int (n : Int) : PyVal
  | list (xs : List PyVal) : PyVal

mutual

/-- Decidable equality of Python values. -/
def PyVal.decEq : (a b : PyVal) → Decidable (a = b)
  | .pyNone, .pyNone => isTrue rfl
  | .str a, .str b =>
    match String.decEq a b with
    | isTrue h => isTrue (congrArg PyVal.str h)
    | isFalse h => isFalse (fun hh => h (PyVal.str.inj hh))
  | .int a, .int b =>
    match Int.decEq a b with
    | isTrue h => isTrue (congrArg PyVal.int h)
    | isFalse h => isFalse (fun hh => h (PyVal.int.inj hh))
  | .list xs, .list ys =>
    match PyVal.decEqList xs ys with
    | isTrue h => isTrue (congrArg PyVal.list h)
    | isFalse h => isFalse (fun hh => h (PyVal.list.inj hh))
  | .pyNone, .str _ => isFalse (fun hh => by cases hh)
  | .pyNone, .int _ => isFalse (fun hh => by cases hh)
  | .pyNone, .list _ => isFalse (fun hh => by cases hh)
  | .str _, .pyNone => isFalse (fun hh => by cases hh)
  | .str _, .int _ => isFalse (fun hh => by cases hh)
  | .str _, .list _ => isFalse (fun hh => by cases hh)
  | .int _, .pyNone => isFalse (fun hh => by cases hh)
  | .int _, .str _ => isFalse (fun hh => by cases hh)
  | .int _, .list _ => isFalse (fun hh => by cases hh)
  | .list _, .pyNone => isFalse (fun hh => by cases hh)
  | .list _, .str _ => isFalse (fun hh => by cases hh)
  | .list _, .int _ => isFalse (fun hh => by cases hh)

/-- Decidable equality of lists of Python values. -/
def PyVal.decEqList : (xs ys : List PyVal) → Decidable (xs = ys)
  | [], [] => isTrue rfl
  | [], _ :: _ => isFalse (fun hh => by cases hh)
  | _ :: _, [] => isFalse (fun hh => by cases hh)
  | x :: xs, y :: ys =>
    match PyVal.decEq x y, PyVal.decEqList xs ys with
    | isTrue h1, isTrue h2 => isTrue (by rw [h1, h2])
    | isFalse h1, _ => isFalse (fun hh => by injection hh with ha hb; exact h1 ha)
    | _, isFalse h2 => isFalse (fun hh => by injection hh with ha hb; exact h2 hb)

end

instance : DecidableEq PyVal := PyVal.decEq

/-- The single-quote character, used by Python `repr` of strings. -/
def squote : String := String.singleton (Char.ofNat 39)

mutual

/-- Python `repr()` of a value (used by `str()` on containers). -/
def pyRepr : PyVal → String
  | .pyNone => "None"
  | .str s => squote ++ s ++ squote
  | .int n => toString n
  | .list xs => "[" ++ String.intercalate ", " (pyReprList xs) ++ "]"

/-- `repr` of each element of a list, in order. -/
def pyReprList : List PyVal → List String
  | [] => []
  | x :: xs => pyRepr x :: pyReprList xs

end

/-- Python `str()` of a value: a string is itself, anything else is its
`repr` (`str(None) = "None"`, `str(5) = "5"`, …). -/
def pyStr : PyVal → String
  | .str s => s
  | v => pyRepr v

/-- `d.get(key, default)` on a field that is either absent (`Option.none`)
or present with some value (possibly Python `None`). -/
def pyGet (field : Option PyVal) (default : PyVal) : PyVal :=
  field.getD default

/-- Python truthiness of an `Optional[str]`: `None` and `""` are falsy. -/
def pyTruthy : Option String → Bool
  | Option.none => false
  | some s => s ≠ ""

/-- A raw torrent record from the aggregator response
(`api_client.py`, the `torrents` selection of the GraphQL query).
Each field may be absent, or present with an arbitrary value. -/
structure RawTorrent where
  added : Option PyVal := Option.none
  category : Option PyVal := Option.none
  fileCount : Option PyVal := Option.none
  id : Option PyVal := Option.none
  infoHash : Option PyVal := Option.none
  leechers : Option PyVal := Option.none
  name : Option PyVal := Option.none
  seeders : Option PyVal := Option.none
  size : Option PyVal := Option.none
  magnet : Option PyVal := Option.none
  provider : Option PyVal := Option.none
deriving DecidableEq

/-- One entry of the `errors` list of the aggregator response. -/
structure ProviderError where
  provider : Option PyVal := Option.none
  error : Option PyVal := Option.none
deriving DecidableEq

/-- The Korrent-format record built by `TorrentApiClient._convert_torrent`
(api_client.py lines 235–247).  Fields produced by `str()`/formatting are
`String`; fields copied through from the raw mapping keep their `PyVal`. -/
structure KTorrent where
  name : PyVal
  size : String
  time : String
  seeders : String
  leechers : String
  torrent_id : PyVal
  magnet_link : PyVal
  category : PyVal
  provider : PyVal
  uploader : String
  url : String
deriving DecidableEq

/-! ### Size formatting (`TorrentApiClient._format_size`, lines 249–263) -/

/-- `q / 1024` written with `mkRat` so that the kernel can evaluate it
(`Rat.div` is `@[irreducible]`); `div1024_eq` proves it is the field
division. -/
def div1024 (q : ℚ) : ℚ := mkRat q.num (q.den * 1024)

/-- `q * 100` written with `mkRat` so that the kernel can evaluate it;
`mul100_eq` proves it is the field multiplication. -/
def mul100 (q : ℚ) : ℚ := mkRat (q.num * 100) q.den

/-- Round to the nearest integer, ties to even — the rounding used by
Python `format(x, ".2f")` at exactly representable midpoints.  `r2` is
twice the fractional part `q - ⌊q⌋`, written with `mkRat` so that the
kernel can evaluate it (see `roundTwice_eq`); the three branches are
round-down, round-up, and the tie sent to the even neighbour. -/
def roundHalfEven (q : ℚ) : ℤ :=
  let f : ℤ := ⌊q⌋
  let r2 : ℚ := mkRat (2 * (q.num - f * q.den)) q.den
  if r2 < 1 then f
  else if 1 < r2 then f + 1
  else if f % 2 = 0 then f else f + 1

/-- Left-pad a natural number to two digits (`02`, `15`, …). -/
def pad2 (n : ℕ) : String :=
  if n < 10 then "0" ++ toString n else toString n

/-- Python `f"{x:.2f}"`: two decimal places, half-even rounding. -/
def formatTwoDec (q : ℚ) : String :=
  let c := roundHalfEven (mul100 q)
  let a := c.natAbs
  (if c < 0 then "-" else "") ++ toString (a / 100) ++ "." ++ pad2 (a % 100)

/-- The unit ladder of `_format_size` before the terminal `PB`. -/
def sizeUnits : List String := ["B", "KB", "MB", "GB", "TB"]

/-- The loop of `_format_size`: divide by 1024 while the value is at least
1024 and units remain; when the units run out, print in `PB`. -/
def formatSizeAux : List String → ℚ → String
  | [], q => formatTwoDec q ++ " PB"
  | u :: us, q =>
    if q < 1024 then formatTwoDec q ++ " " ++ u
    else formatSizeAux us (div1024 q)

/-- `TorrentApiClient._format_size` (Python float division modelled by
exact rational division). -/
def format_size (size_bytes : ℚ) : String :=
  formatSizeAux sizeUnits size_bytes

/-! ### Timestamp parsing and rendering
(`_convert_torrent`, api_client.py lines 214–219)

`datetime.fromisoformat` is modelled on the extended ISO-8601 grammar it
accepts: `YYYY-MM-DD`, optionally followed by one separator character and
`HH[:MM[:SS[.f+]]]`, optionally followed by a `±HH:MM` UTC offset.  Field
ranges are validated as CPython does (month 1–12, day bounded by the
month length with leap years, hour ≤ 23, minute/second ≤ 59, offset hour
≤ 23).  `strftime("%Y-%m-%d %H:%M")` renders the parsed wall-clock
fields, ignoring any offset, exactly as CPython does. -/

/-- A parsed `datetime` value (wall-clock fields; a parsed UTC offset is
validated but not retained, since `%Y-%m-%d %H:%M` ignores it). -/
structure PyDateTime where
  year : ℕ
  month : ℕ
  day : ℕ
  hour : ℕ
  minute : ℕ
  second : ℕ
  microsecond : ℕ
deriving DecidableEq

/-- Numeric value of a decimal digit character. -/
def digitVal (c : Char) : ℕ := c.toNat - 48

/-- Parse exactly two decimal digits. -/
def parse2 : List Char → Option (ℕ × List Char)
  | a :: b :: rest =>
    if a.isDigit && b.isDigit then some (10 * digitVal a + digitVal b, rest)
    else Option.none
  | _ => Option.none

/-- Parse exactly four decimal digits. -/
def parse4 : List Char → Option (ℕ × List Char)
  | a :: b :: c :: d :: rest =>
    if a.isDigit && b.isDigit && c.isDigit && d.isDigit then
      some (1000 * digitVal a + 100 * digitVal b + 10 * digitVal c + digitVal d, rest)
    else Option.none
  | _ => Option.none

/-- Consume one expected character. -/
def expectChar (c : Char) : List Char → Option (List Char)
  | x :: rest => if x = c then some rest else Option.none
  | [] => Option.none

/-- Gregorian leap-year rule. -/
def isLeap (y : ℕ) : Bool :=
  (y % 4 == 0 && y % 100 != 0) || y % 400 == 0

/-- Days in a month of a given year. -/
def daysInMonth (y m : ℕ) : ℕ :=
  if m == 2 then (if isLeap y then 29 else 28)
  else if m == 4 || m == 6 || m == 9 || m == 11 then 30
  else 31

/-- Validity of parsed date fields, as `datetime` checks them. -/
def validDate (y m d : ℕ) : Bool :=
  1 ≤ y && y ≤ 9999 && 1 ≤ m && m ≤ 12 && 1 ≤ d && d ≤ daysInMonth y m

/-- Validity of parsed time-of-day fields. -/
def validTime (h mi s : ℕ) : Bool :=
  h ≤ 23 && mi ≤ 59 && s ≤ 59

/-- Fractional-second digits to microseconds (truncated past 6 digits). -/
def fracMicro (ds : List Char) : ℕ :=
  (ds.take 6).foldl (fun a c => 10 * a + digitVal c) 0 * 10 ^ (6 - (ds.take 6).length)

/-- Parse `HH[:MM[:SS[.f+]]]`, returning `(h, mi, s, us, rest)`. -/
def parseTimePart (cs : List Char) : Option (ℕ × ℕ × ℕ × ℕ × List Char) :=
  match parse2 cs with
  | Option.none => Option.none
  | some (h, cs1) =>
    match expectChar ':' cs1 with
    | Option.none => some (h, 0, 0, 0, cs1)
    | some cs2 =>
      match parse2 cs2 with
      | Option.none => some (h, 0, 0, 0, cs1)
      | some (mi, cs3) =>
        match expectChar ':' cs3 with
        | Option.none => some (h, mi, 0, 0, cs3)
        | some cs4 =>
          match parse2 cs4 with
          | Option.none => some (h, mi, 0, 0, cs3)
          | some (s, cs5) =>
            match expectChar '.' cs5 with
            | Option.none => some (h, mi, s, 0, cs5)
            | some cs6 =>
              let ds := cs6.takeWhile Char.isDigit
              if ds = [] then some (h, mi, s, 0, cs5)
              else some (h, mi, s, fracMicro ds, cs6.drop ds.length)

/-- Parse and validate an optional trailing `±HH:MM` UTC offset; returns
`true` when the remaining input is a well-formed (possibly empty) offset. -/
def parseOffset (cs : List Char) : Bool :=
  match cs with
  | [] => true
  | c :: rest =>
    if c = '+' || c = '-' then
      match parse2 rest with
      | Option.none => false
      | some (oh, cs1) =>
        match expectChar ':' cs1 with
        | Option.none => false
        | some cs2 =>
          match parse2 cs2 with
          | Option.none => false
          | some (om, cs3) => cs3 = [] && oh ≤ 23 && om ≤ 59
    else false

/-- `datetime.fromisoformat`, modelled on the grammar described above. -/
def fromisoformat (s : String) : Option PyDateTime :=
  match parse4 s.toList with
  | Option.none => Option.none
  | some (y, cs1) =>
    match expectChar '-' cs1 with
    | Option.none => Option.none
    | some cs2 =>
      match parse2 cs2 with
      | Option.none => Option.none
      | some (mo, cs3) =>
        match expectChar '-' cs3 with
        | Option.none => Option.none
        | some cs4 =>
          match parse2 cs4 with
          | Option.none => Option.none
          | some (d, cs5) =>
            match cs5 with
            | [] =>
              if validDate y mo d then some ⟨y, mo, d, 0, 0, 0, 0⟩ else Option.none
            | _sep :: rest =>
              match parseTimePart rest with
              | Option.none => Option.none
              | some (h, mi, se, us, rest2) =>
                if parseOffset rest2 && validDate y mo d && validTime h mi se then
                  some ⟨y, mo, d, h, mi, se, us⟩
                else Option.none

/-- `added_dt.strftime("%Y-%m-%d %H:%M")`. -/
def strftime_ymd_hm (dt : PyDateTime) : String :=
  (if dt.year < 1000 then
    (if dt.year < 100 then (if dt.year < 10 then "000" else "00") else "0")
  else "") ++ toString dt.year ++ "-" ++ pad2 dt.month ++ "-" ++ pad2 dt.day
  ++ " " ++ pad2 dt.hour ++ ":" ++ pad2 dt.minute

/-! ### The response normalizer (`TorrentApiClient._convert_torrent`) -/

/-- `s.replace("Z", "+00:00")`: the pattern is the single character `Z`,
so Python's left-to-right non-overlapping replacement maps each character
independently. -/
def replaceZ (s : String) : String :=
  String.join (s.toList.map (fun c => if c = 'Z' then "+00:00" else String.singleton c))

/-- Lines 214–219: parse `torrent.get("added", "")` after replacing every
`"Z"` with `"+00:00"`; the bare `except` turns any failure (including a
non-string value, where `.replace` would raise `AttributeError`) into the
literal `"Unknown"`. -/
def convTime (added : Option PyVal) : String :=
  match pyGet added (.str "") with
  | .str s =>
    match fromisoformat (replaceZ s) with
    | some dt => strftime_ymd_hm dt
    | Option.none => "Unknown"
  | _ => "Unknown"

/-- Lines 222–223: `_format_size(torrent.get("size", 0))`.  The comparison
`size_bytes < 1024.0` raises `TypeError` when the value is not a number
(e.g. `None`, a string, or a list); that exception is not caught inside
`_convert_torrent`. -/
def convSize (size : Option PyVal) : Except String String :=
  match pyGet size (.int 0) with
  | .int n => .ok (format_size (n : ℚ))
  | _ => .error "TypeError: comparison of non-number with float"

/-- Lines 230–232: a list-valued `provider` is replaced by its first
element, or `"Unknown"` when the list is empty; any other value passes
through. -/
def convProvider (provider : Option PyVal) : PyVal :=
  match pyGet provider (.str "Unknown") with
  | .list [] => .str "Unknown"
  | .list (x :: _) => x
  | v => v

/-- `TorrentApiClient._convert_torrent` (lines 204–247).  The only
uncaught failure is the `TypeError` from `_format_size` on a non-numeric
`size` value. -/
def convert_torrent (t : RawTorrent) : Except String KTorrent :=
  let time_str := convTime t.added
  match convSize t.size with
  | .error e => .error e
  | .ok size_str =>
    .ok {
      name := pyGet t.name (.str "Unknown"),
      size := size_str,
      time := time_str,
      seeders := pyStr (pyGet t.seeders (.int 0)),
      leechers := pyStr (pyGet t.leechers (.int 0)),
      torrent_id := pyGet t.infoHash (.str ""),
      magnet_link := pyGet t.magnet (.str ""),
      category := pyGet t.category (.str "Other"),
      provider := convProvider t.provider,
      uploader := "TorrentApi",
      url := "/torrent/" ++ pyStr (pyGet t.infoHash (.str "")) }

/-! ### Aggregator request mapping (`TorrentApiClient.search`, lines 51–94) -/

/-- The `category_mapping` dict (lines 52–59). -/
def category_mapping : List (String × String) :=
  [("Any", "ALL"), ("Movies/TV", "VIDEO"), ("Music", "AUDIO"),
   ("Games", "GAMES"), ("Apps", "APPLICATIONS"), ("Other", "OTHER")]

/-- The `sort_mapping` dict (lines 62–67). -/
def sort_mapping : List (String × String) :=
  [("time", "ADDED"), ("size", "SIZE"), ("seeders", "SEEDERS"), ("leechers", "LEECHERS")]

/-- The `order_mapping` dict (lines 70–73). -/
def order_mapping : List (String × String) :=
  [("desc", "DESCENDING"), ("asc", "ASCENDING")]

/-- The `provider_mapping` dict (lines 76–80). -/
def provider_mapping : List (String × String) :=
  [("PirateBay", "PIRATEBAY"), ("YTS", "YTS"), ("BitSearch", "BITSEARCH")]

/-- Python `d.get(k, default)` over an association list. -/
def dictGet (m : List (String × String)) (k d : String) : String :=
  match m.find? (fun p => p.1 == k) with
  | some p => p.2
  | Option.none => d

/-- Python `k in d` over an association list. -/
def dictContains (m : List (String × String)) (k : String) : Bool :=
  (m.find? (fun p => p.1 == k)).isSome

/-- Line 83: `category_mapping.get(category, "ALL") if category else "ALL"`. -/
def api_category (category : Option String) : String :=
  if pyTruthy category then dictGet category_mapping (category.getD "") "ALL" else "ALL"

/-- Line 84: `sort_mapping.get(sort_by, "SEEDERS") if sort_by else "SEEDERS"`. -/
def api_sort (sort_by : Option String) : String :=
  if pyTruthy sort_by then dictGet sort_mapping (sort_by.getD "") "SEEDERS" else "SEEDERS"

/-- Line 85: `order_mapping.get(order, "DESCENDING")`. -/
def api_order (order : String) : String :=
  dictGet order_mapping order "DESCENDING"

/-- Lines 88–94: map recognized provider names through `provider_mapping`,
dropping unrecognized ones; an absent/empty list, or a list whose every
entry is unrecognized, yields all known providers. -/
def api_providers (providers : Option (List String)) : List String :=
  match providers with
  | some ps =>
    if ps ≠ [] then
      let mapped := (ps.filter (fun p => dictContains provider_mapping p)).map
        (fun p => dictGet provider_mapping p p)
      if mapped ≠ [] then mapped else provider_mapping.map Prod.snd
    else provider_mapping.map Prod.snd
  | Option.none => provider_mapping.map Prod.snd

/-! ### Aggregator search decision rule (`TorrentApiClient.search`, lines 137–182) -/

/-- The terminal outcomes of `search` once a well-formed response has been
received: the converted record list, the `AllProvidersFailed` hard error
(line 172), or a wrapped conversion failure (line 181–182). -/
inductive SearchError where
  | allProvidersFailed (msgs : List String) : SearchError
  | searchFailed (msg : String) : SearchError
deriving DecidableEq

/-- Lines 163–165: `f"{provider}: {error_msg}"` with the two `.get`
defaults `"Unknown"` and `"Unknown error"`. -/
def providerErrorMsg (e : ProviderError) : String :=
  pyStr (pyGet e.provider (.str "Unknown")) ++ ": " ++ pyStr (pyGet e.error (.str "Unknown error"))

/-- Lines 155–175: given the `torrents` and `errors` lists extracted from
the response, raise `AllProvidersFailed` when there are errors and no
records; otherwise convert every record (a conversion failure is wrapped
as `Search failed`, lines 181–182). -/
def searchResponse (torrents : List RawTorrent) (errors : List ProviderError) :
    Except SearchError (List KTorrent) :=
  if errors ≠ [] ∧ torrents = [] then
    .error (.allProvidersFailed (errors.map providerErrorMsg))
  else
    match torrents.mapM convert_torrent with
    | .ok ks => .ok ks
    | .error m => .error (.searchFailed m)

/-! ### The endpoint rotation pool (`custom_1337x.py`, lines 15–75) -/

/-- The `ALTERNATIVE_DOMAINS` list (lines 15–27). -/
def ALTERNATIVE_DOMAINS : List String :=
  ["https://1337x.unblockit.kim",
   "https://1337x.unblockninja.com",
   "https://1337x.to",
   "https://1337x.proxyninja.org",
   "https://1337x.is",
   "https://1337x.st",
   "https://x1337x.ws",
   "https://x1337x.eu",
   "https://x1337x.se",
   "https://x1337x.cc",
   "https://1337.abcvg.info"]

/-- The pool size; `max_retries = len(self.domains)` (line 60). -/
def numDomains : ℕ := ALTERNATIVE_DOMAINS.length

/-- Python `list.index` (first index of the element; the element is
always checked for membership first in the source). -/
def py_index : List String → String → ℕ
  | [], _ => 0
  | x :: xs, a => if x = a then 0 else py_index xs a + 1

/-- Line 59: `self.domains.index(base_url) if base_url in self.domains
else 0` — the initial rotation cursor for an explicitly supplied
endpoint. -/
def init_domain_index (base_url : String) : ℕ :=
  if base_url ∈ ALTERNATIVE_DOMAINS then py_index ALTERNATIVE_DOMAINS base_url else 0

/-- Line 64 of `_rotate_domain`: the cursor moves to `(cursor + 1) mod
poolSize`. -/
def rotate_domain_index (n i : ℕ) : ℕ := (i + 1) % n

/-- The endpoint at a cursor position (`self.domains[i]`). -/
def domain_at (i : ℕ) : String := ALTERNATIVE_DOMAINS.getD i ""

/-- `advance()` on the pool: rotate the cursor and return the new active
endpoint (`_rotate_domain` sets `self.base_url` to the new entry). -/
def advance_domain (i : ℕ) : ℕ × String :=
  (rotate_domain_index numDomains i, domain_at (rotate_domain_index numDomains i))

/-- `k` successive `advance()` calls starting from cursor `i`. -/
def advanceIter (n : ℕ) : ℕ → ℕ → ℕ
  | 0, i => i
  | k + 1, i => advanceIter n k (rotate_domain_index n i)

/-! ### Direct-scrape search (`Custom1337x.search`, lines 77–126) -/

/-- The `py1337x.models.TorrentResult` shape. -/
structure TorrentResult (α : Type) where
  items : List α
  current_page : ℕ
  item_count : ℕ
  page_count : ℕ
deriving DecidableEq

/-- The empty result returned when all domains fail (line 126). -/
def emptyResult (α : Type) (page : ℕ) : TorrentResult α :=
  { items := [], current_page := page, item_count := 0, page_count := 1 }

/-- The observable outcome of one fetch attempt against one endpoint:
an exception (line 115), a non-200 status (line 113), a 200 page without
torrent-link markers (line 112), or a parsed result (line 108). -/
inductive FetchOutcome (α : Type) where
  | fail : FetchOutcome α
  | badStatus : FetchOutcome α
  | noMarkers : FetchOutcome α
  | parsed (result : TorrentResult α) : FetchOutcome α

/-- The retry loop of `Custom1337x.search` (lines 91–126): starting at
cursor `idx` with `rem` attempts left, fetch from the current endpoint;
return a parsed result whose `items` list is non-empty, otherwise rotate
and retry; when the attempt budget is exhausted return the empty result.
Also returns the trace of endpoint cursors fetched, in order (its length
is the number of fetch attempts performed). -/
def searchLoop {α : Type} (fetch : ℕ → FetchOutcome α) (n page : ℕ) :
    ℕ → ℕ → List ℕ × TorrentResult α
  | _, 0 => ([], emptyResult α page)
  | idx, rem + 1 =>
    match fetch idx with
    | .parsed result =>
      if result.items.isEmpty then
        let next := searchLoop fetch n page (rotate_domain_index n idx) rem
        (idx :: next.1, next.2)
      else ([idx], result)
    | _ =>
      let next := searchLoop fetch n page (rotate_domain_index n idx) rem
      (idx :: next.1, next.2)

/-- `Custom1337x.search`: the loop runs `while attempts < self.max_retries`
with `max_retries = len(self.domains)`, i.e. fuel equal to the pool size. -/
def custom_search {α : Type} (fetch : ℕ → FetchOutcome α) (startIdx page : ℕ) :
    List ℕ × TorrentResult α :=
  searchLoop fetch numDomains page startIdx numDomains

/-! ### Direct-scrape detail resolver (`Custom1337x.info`, lines 128–217) -/

/-- The `py1337x.models.TorrentInfo` shape, with the dynamically attached
`torrent_id` attribute modelled as an `Option` (`Option.none` = the
attribute was never `setattr`-ed). -/
structure TorrentInfoM where
  name : Option String := Option.none
  short_name : Option String := Option.none
  description : Option String := Option.none
  category : Option String := Option.none
  type : Option String := Option.none
  genre : Option String := Option.none
  language : Option String := Option.none
  size : Option String := Option.none
  thumbnail : Option String := Option.none
  images : Option (List String) := Option.none
  uploader : Option String := Option.none
  uploader_link : Option String := Option.none
  downloads : Option String := Option.none
  last_checked : Option String := Option.none
  date_uploaded : Option String := Option.none
  seeders : Option ℕ := Option.none
  leechers : Option ℕ := Option.none
  magnet_link : Option String := Option.none
  info_hash : Option String := Option.none
  torrent_id : Option String := Option.none
deriving DecidableEq

/-- The minimal placeholder object built when every domain fails
(lines 191–217): fixed `name`/`description` strings, every other field
`None`, and `torrent_id` attached only when the argument is truthy. -/
def minimal_info (torrent_id : Option String) : TorrentInfoM :=
  { name := some "Unable to retrieve details",
    description := some "Torrent details could not be retrieved from any available domains.",
    torrent_id := if pyTruthy torrent_id then torrent_id else Option.none }

/-- The observable outcome of one detail-fetch attempt: an exception or
non-200 status (lines 176–179), a 200 page without the `box-info-heading`
marker (line 157), a parser exception (line 174), or a parsed
`TorrentInfo` (line 164). -/
inductive InfoFetchOutcome where
  | fail : InfoFetchOutcome
  | noBoxInfo : InfoFetchOutcome
  | parseError : InfoFetchOutcome
  | parsed (r : TorrentInfoM) : InfoFetchOutcome

/-- Whether one attempt outcome makes `info` return: the parsed result
must have a truthy `magnet_link` (line 167). -/
def infoAttemptOk : InfoFetchOutcome → Bool
  | .parsed r => pyTruthy r.magnet_link
  | _ => false

/-- The retry loop of `Custom1337x.info` (lines 132–185): when both
`link` and `torrent_id` are `None` the attempt raises `ValueError`
(line 138), which is caught by the enclosing `except` (line 178) and
counts as a failed attempt; otherwise the fetch outcome decides.  A
successful result gets `torrent_id` attached when the argument is truthy
(lines 169–171); an exhausted budget yields the minimal placeholder.
Returns the trace of endpoint cursors attempted together with the
result. -/
def infoLoop (fetch : ℕ → InfoFetchOutcome) (link torrent_id : Option String) (n : ℕ) :
    ℕ → ℕ → List ℕ × TorrentInfoM
  | _, 0 => ([], minimal_info torrent_id)
  | idx, rem + 1 =>
    if link = Option.none ∧ torrent_id = Option.none then
      let next := infoLoop fetch link torrent_id n (rotate_domain_index n idx) rem
      (idx :: next.1, next.2)
    else
      match fetch idx with
      | .parsed r =>
        if pyTruthy r.magnet_link then
          ([idx], if pyTruthy torrent_id then { r with torrent_id := torrent_id } else r)
        else
          let next := infoLoop fetch link torrent_id n (rotate_domain_index n idx) rem
          (idx :: next.1, next.2)
      | _ =>
        let next := infoLoop fetch link torrent_id n (rotate_domain_index n idx) rem
        (idx :: next.1, next.2)

/-- `Custom1337x.info`: fuel equal to the pool size. -/
def custom_info (fetch : ℕ → InfoFetchOutcome) (link torrent_id : Option String)
    (startIdx : ℕ) : List ℕ × TorrentInfoM :=
  infoLoop fetch link torrent_id numDomains startIdx numDomains

/-! ### Concrete records used to evaluate the definitions -/

/-- Whether the `size` field would survive `_format_size`: absent (the
default `0` is used) or an integer. -/
def sizeIsNumeric : Option PyVal → Bool
  | Option.none => true
  | some (.int _) => true
  | _ => false

/-- A raw record whose every field is absent. -/
def rawEmpty : RawTorrent := {}

/-- The conversion of `rawEmpty`: every field takes its documented
default. -/
def kEmpty : KTorrent :=
  { name := .str "Unknown", size := "0.00 B", time := "Unknown",
    seeders := "0", leechers := "0", torrent_id := .str "",
    magnet_link := .str "", category := .str "Other",
    provider := .str "Unknown", uploader := "TorrentApi",
    url := "/torrent/" }

/-- A raw record whose `size` field is present but `None` (JSON null). -/
def rawNullSize : RawTorrent := { size := some .pyNone }

/-- A raw record whose `category` is a string outside the canonical set
All/Video/Audio/Games/Applications/Other. -/
def rawOddCategory : RawTorrent := { category := some (.str "Cartoons") }

/-- The conversion of `rawOddCategory`. -/
def kOddCategory : KTorrent := { kEmpty with category := .str "Cartoons" }

/-! ## Theorems -/

/-- Iterated rotation is addition modulo the pool size. -/
theorem advanceIter_eq (n : ℕ) (hn : 0 < n) :
    ∀ (k i : ℕ), i < n → advanceIter n k i = (i + k) % n := by
  intro k
  induction k with
  | zero =>
    intro i hi
    simp [advanceIter, Nat.mod_eq_of_lt hi]
  | succ k ih =>
    intro i hi
    have h1 : rotate_domain_index n i < n := Nat.mod_lt _ hn
    calc advanceIter n (k + 1) i = advanceIter n k (rotate_domain_index n i) := rfl
      _ = (rotate_domain_index n i + k) % n := ih _ h1
      _ = ((i + 1) % n + k) % n := rfl
      _ = (i + 1 + k) % n := Nat.mod_add_mod _ _ _
      _ = (i + (k + 1)) % n := by ring_nf

/-- Looking up a member of a list at its `py_index` recovers it. -/
theorem getD_py_index (l : List String) (a : String) (h : a ∈ l) :
    l.getD (py_index l a) "" = a := by
  induction l with
  | nil => cases h
  | cons x xs ih =>
    by_cases hx : x = a
    · simp [py_index, hx]
    · have hm : a ∈ xs := by
        cases h with
        | head => exact absurd rfl hx
        | tail _ h2 => exact h2
      rw [show py_index (x :: xs) a = py_index xs a + 1 from by simp [py_index, hx],
        List.getD_cons_succ]
      exact ih hm

/-- C6: the endpoint rotation pool.  `advance()` moves the cursor to
`(cursor + 1) mod poolSize` and returns the new endpoint, advancing
`poolSize` times returns to the starting cursor, and construction with an
explicitly supplied endpoint starts the cursor at that endpoint's index
in the pool when present, else at index 0. -/
theorem rotation_pool_spec :
    (∀ i : ℕ, i < numDomains → advanceIter numDomains numDomains i = i) ∧
    (∀ i : ℕ, advance_domain i =
      ((i + 1) % numDomains, domain_at ((i + 1) % numDomains))) ∧
    (∀ base : String, base ∈ ALTERNATIVE_DOMAINS →
      domain_at (init_domain_index base) = base) ∧
    (∀ base : String, base ∉ ALTERNATIVE_DOMAINS → init_domain_index base = 0) := by
  refine ⟨?_, ?_, ?_, ?_⟩
  · intro i hi
    rw [advanceIter_eq numDomains (by decide) numDomains i hi,
      Nat.add_mod_right, Nat.mod_eq_of_lt hi]
  · intro i
    rfl
  · intro base hb
    unfold init_domain_index domain_at
    rw [if_pos hb]
    exact getD_py_index _ _ hb
  · intro base hb
    unfold init_domain_index
    rw [if_neg hb]

/-- C6 witness: concrete rotation and construction facts obtained from
`rotation_pool_spec`. -/
theorem rotation_pool_spec_witness :
    advanceIter numDomains numDomains 3 = 3 ∧
    domain_at (init_domain_index "https://1337x.to") = "https://1337x.to" ∧
    init_domain_index "https://example.org" = 0 :=
  ⟨rotation_pool_spec.1 3 (by decide),
   rotation_pool_spec.2.2.1 "https://1337x.to" (by decide),
   rotation_pool_spec.2.2.2 "https://example.org" (by decide)⟩

/-- When every fetch attempt fails (or parses an empty item list), the
search loop consumes its whole attempt budget, visiting consecutive
cursors modulo the pool size, and produces the empty result. -/
theorem searchLoop_all_fail {α : Type} (fetch : ℕ → FetchOutcome α) (n page : ℕ)
    (hn : 0 < n) (h : ∀ i r, fetch i = .parsed r → r.items = []) :
    ∀ (rem idx : ℕ), idx < n →
      searchLoop fetch n page idx rem =
        ((List.range rem).map (fun k => (idx + k) % n), emptyResult α page) := by
  intro rem
  induction rem with
  | zero => intro idx _; simp [searchLoop]
  | succ rem ih =>
    intro idx hidx
    have hrot : rotate_domain_index n idx < n := Nat.mod_lt _ hn
    have htail := ih (rotate_domain_index n idx) hrot
    have hmap : (List.range rem).map (fun k => (rotate_domain_index n idx + k) % n) =
        (List.range rem).map (fun k => (idx + Nat.succ k) % n) := by
      apply List.map_congr_left
      intro k _
      show ((idx + 1) % n + k) % n = _
      rw [Nat.mod_add_mod]
      congr 1
      omega
    rw [List.range_succ_eq_map, List.map_cons, List.map_map]
    cases hf : fetch idx with
    | parsed r =>
      have hr : r.items = [] := h idx r hf
      simp only [searchLoop, hf, hr, List.isEmpty_nil, if_pos]
      rw [htail, hmap]
      simp [Nat.mod_eq_of_lt hidx, Function.comp]
    | fail =>
      simp only [searchLoop, hf]
      rw [htail, hmap]
      simp [Nat.mod_eq_of_lt hidx, Function.comp]
    | badStatus =>
      simp only [searchLoop, hf]
      rw [htail, hmap]
      simp [Nat.mod_eq_of_lt hidx, Function.comp]
    | noMarkers =>
      simp only [searchLoop, hf]
      rw [htail, hmap]
      simp [Nat.mod_eq_of_lt hidx, Function.comp]

/-- C2: direct-scrape search over a pool of `K = numDomains` endpoints.
If every endpoint yields a failure, a non-200 status, or an empty result
set, `search()` performs exactly `K` fetch attempts — one per pool entry,
advancing the rotation cursor each time — and returns the empty record
list as a normal value. -/
theorem scrape_search_exhausts_pool {α : Type} (fetch : ℕ → FetchOutcome α)
    (page s : ℕ) (hs : s < numDomains)
    (h : ∀ i r, fetch i = .parsed r → r.items = []) :
    custom_search fetch s page =
      ((List.range numDomains).map (fun k => (s + k) % numDomains),
        emptyResult α page) ∧
    (custom_search fetch s page).1.length = numDomains ∧
    (custom_search fetch s page).2 = emptyResult α page := by
  have hmain := searchLoop_all_fail fetch numDomains page (by decide) h numDomains s hs
  refine ⟨hmain, ?_, ?_⟩
  · rw [show custom_search fetch s page = searchLoop fetch numDomains page s numDomains from rfl,
      hmain]
    simp
  · rw [show custom_search fetch s page = searchLoop fetch numDomains page s numDomains from rfl,
      hmain]

/-- C2 witness: a pool where every endpoint errors out is exhausted in
exactly `numDomains = 11` attempts and yields the empty result. -/
theorem scrape_search_exhausts_pool_witness :
    custom_search (fun _ => FetchOutcome.fail (α := ℕ)) 0 1 =
      ((List.range numDomains).map (fun k => (0 + k) % numDomains),
        emptyResult ℕ 1) ∧
    (custom_search (fun _ => FetchOutcome.fail (α := ℕ)) 0 1).1.length = numDomains ∧
    (custom_search (fun _ => FetchOutcome.fail (α := ℕ)) 0 1).2 = emptyResult ℕ 1 :=
  scrape_search_exhausts_pool (fun _ => FetchOutcome.fail) 1 0 (by decide)
    (fun _ r hr => by cases hr)

/-- When every attempt of the detail loop fails — because both `link` and
`torrent_id` are `None` (the caught `ValueError`), or because no fetch
produces a parsed result with a truthy magnet link — the loop consumes
its whole budget, visiting consecutive cursors modulo the pool size, and
returns the minimal placeholder. -/
theorem infoLoop_all_fail (fetch : ℕ → InfoFetchOutcome) (link tid : Option String)
    (n : ℕ) (hn : 0 < n)
    (h : (link = Option.none ∧ tid = Option.none) ∨ ∀ i, infoAttemptOk (fetch i) = false) :
    ∀ (rem idx : ℕ), idx < n →
      infoLoop fetch link tid n idx rem =
        ((List.range rem).map (fun k => (idx + k) % n), minimal_info tid) := by
  intro rem
  induction rem with
  | zero => intro idx _; simp [infoLoop]
  | succ rem ih =>
    intro idx hidx
    have hrot : rotate_domain_index n idx < n := Nat.mod_lt _ hn
    have htail := ih (rotate_domain_index n idx) hrot
    have hmap : (List.range rem).map (fun k => (rotate_domain_index n idx + k) % n) =
        (List.range rem).map (fun k => (idx + Nat.succ k) % n) := by
      apply List.map_congr_left
      intro k _
      show ((idx + 1) % n + k) % n = _
      rw [Nat.mod_add_mod]
      congr 1
      omega
    rw [List.range_succ_eq_map, List.map_cons, List.map_map]
    cases h with
    | inl hnone =>
      simp only [infoLoop, if_pos hnone]
      rw [htail, hmap]
      simp [Nat.mod_eq_of_lt hidx, Function.comp]
    | inr hfail =>
      by_cases hb : link = Option.none ∧ tid = Option.none
      · simp only [infoLoop, if_pos hb]
        rw [htail, hmap]
        simp [Nat.mod_eq_of_lt hidx, Function.comp]
      · cases hf : fetch idx with
        | parsed r =>
          have hm : pyTruthy r.magnet_link = false := by
            have := hfail idx
            rwa [hf] at this
          simp only [infoLoop, if_neg hb, hf, hm, Bool.false_eq_true, if_neg]
          rw [htail, hmap]
          simp [Nat.mod_eq_of_lt hidx, Function.comp]
        | fail =>
          simp only [infoLoop, if_neg hb, hf]
          rw [htail, hmap]
          simp [Nat.mod_eq_of_lt hidx, Function.comp]
        | noBoxInfo =>
          simp only [infoLoop, if_neg hb, hf]
          rw [htail, hmap]
          simp [Nat.mod_eq_of_lt hidx, Function.comp]
        | parseError =>
          simp only [infoLoop, if_neg hb, hf]
          rw [htail, hmap]
          simp [Nat.mod_eq_of_lt hidx, Function.comp]

/-- C5: when a detail request made with a (non-empty) `torrent_id` fails
on every endpoint of the pool, the returned placeholder record carries
the originally requested identifier, and every descriptive field holds
its empty/placeholder default. -/
theorem detail_placeholder_spec (fetch : ℕ → InfoFetchOutcome)
    (link : Option String) (tid : String) (s : ℕ)
    (hs : s < numDomains) (htid : tid ≠ "")
    (h : ∀ i, infoAttemptOk (fetch i) = false) :
    (custom_info fetch link (some tid) s).2 = minimal_info (some tid) ∧
    (custom_info fetch link (some tid) s).2.torrent_id = some tid ∧
    (custom_info fetch link (some tid) s).2.name = some "Unable to retrieve details" ∧
    (custom_info fetch link (some tid) s).2.description =
      some "Torrent details could not be retrieved from any available domains." ∧
    (custom_info fetch link (some tid) s).2.magnet_link = Option.none ∧
    (custom_info fetch link (some tid) s).2.info_hash = Option.none ∧
    (custom_info fetch link (some tid) s).2.size = Option.none ∧
    (custom_info fetch link (some tid) s).2.seeders = Option.none ∧
    (custom_info fetch link (some tid) s).2.leechers = Option.none ∧
    (custom_info fetch link (some tid) s).2.uploader = Option.none ∧
    (custom_info fetch link (some tid) s).2.category = Option.none := by
  have hmain := infoLoop_all_fail fetch link (some tid) numDomains (by decide)
    (Or.inr h) numDomains s hs
  have h2 : (custom_info fetch link (some tid) s).2 = minimal_info (some tid) := by
    rw [show custom_info fetch link (some tid) s =
      infoLoop fetch link (some tid) numDomains s numDomains from rfl, hmain]
  have hpt : pyTruthy (some tid) = true := by
    simp [pyTruthy, htid]
  refine ⟨h2, ?_, ?_, ?_, ?_, ?_, ?_, ?_, ?_, ?_, ?_⟩ <;>
    rw [h2] <;> simp [minimal_info, hpt]

/-- C5 witness: a concrete all-failing detail request for id `"abc123"`
returns the placeholder carrying `"abc123"`. -/
theorem detail_placeholder_spec_witness :
    (custom_info (fun _ => InfoFetchOutcome.fail) Option.none (some "abc123") 0).2 =
      minimal_info (some "abc123") ∧
    (custom_info (fun _ => InfoFetchOutcome.fail) Option.none (some "abc123") 0).2.torrent_id =
      some "abc123" :=
  have h := detail_placeholder_spec (fun _ => InfoFetchOutcome.fail) Option.none
    "abc123" 0 (by decide) (by decide) (fun _ => rfl)
  ⟨h.1, h.2.1⟩

/-- C10: a detail request with both `link` and `torrent_id` absent never
lets the internal `ValueError` escape: every attempt catches it, the pool
is rotated through all `K = numDomains` endpoints (whatever the fetch
outcomes would have been), and the minimal placeholder is returned with
no `torrent_id` attribute attached. -/
theorem detail_none_none_spec (fetch : ℕ → InfoFetchOutcome) (s : ℕ)
    (hs : s < numDomains) :
    custom_info fetch Option.none Option.none s =
      ((List.range numDomains).map (fun k => (s + k) % numDomains),
        minimal_info Option.none) ∧
    (custom_info fetch Option.none Option.none s).1.length = numDomains ∧
    (custom_info fetch Option.none Option.none s).2.torrent_id = Option.none := by
  have hmain := infoLoop_all_fail fetch Option.none Option.none numDomains (by decide)
    (Or.inl ⟨rfl, rfl⟩) numDomains s hs
  have he : custom_info fetch Option.none Option.none s =
      infoLoop fetch Option.none Option.none numDomains s numDomains := rfl
  refine ⟨by rw [he, hmain], ?_, ?_⟩
  · rw [he, hmain]
    simp
  · rw [he, hmain]
    rfl

/-- C10 witness: even with a fetch oracle that would succeed on every
endpoint, a both-`None` request performs all 11 attempts and returns the
identifier-less placeholder. -/
theorem detail_none_none_spec_witness :
    custom_info (fun _ => InfoFetchOutcome.parsed { magnet_link := some "magnet:x" })
        Option.none Option.none 2 =
      ((List.range numDomains).map (fun k => (2 + k) % numDomains),
        minimal_info Option.none) ∧
    (custom_info (fun _ => InfoFetchOutcome.parsed { magnet_link := some "magnet:x" })
        Option.none Option.none 2).1.length = numDomains ∧
    (custom_info (fun _ => InfoFetchOutcome.parsed { magnet_link := some "magnet:x" })
        Option.none Option.none 2).2.torrent_id = Option.none :=
  detail_none_none_spec (fun _ => InfoFetchOutcome.parsed { magnet_link := some "magnet:x" })
    2 (by decide)

/-- C1: the aggregator-backend decision rule.  A non-empty record list is
converted and returned even when provider errors are present; an empty
record list with a non-empty error list raises the `AllProvidersFailed`
hard error; an empty record list with no errors returns `[]`. -/
theorem aggregator_search_decision :
    (∀ (ts : List RawTorrent) (es : List ProviderError) (ks : List KTorrent),
      ts ≠ [] → ts.mapM convert_torrent = .ok ks →
      searchResponse ts es = .ok ks) ∧
    (∀ es : List ProviderError, es ≠ [] →
      searchResponse [] es = .error (.allProvidersFailed (es.map providerErrorMsg))) ∧
    searchResponse [] [] = .ok [] := by
  refine ⟨?_, ?_, rfl⟩
  · intro ts es ks hts hok
    unfold searchResponse
    rw [if_neg (by intro hc; exact hts hc.2), hok]
  · intro es hes
    unfold searchResponse
    rw [if_pos ⟨hes, rfl⟩]

/-- C1 witness: the three decision branches at concrete inputs — one
default record with one provider error, no records with one error, and
the doubly-empty response. -/
theorem aggregator_search_decision_witness :
    searchResponse [rawEmpty] [{}] = .ok [kEmpty] ∧
    searchResponse [] [{}] =
      .error (.allProvidersFailed ["Unknown: Unknown error"]) ∧
    searchResponse [] [] = .ok [] :=
  ⟨aggregator_search_decision.1 [rawEmpty] [{}] [kEmpty] (by simp) (by rfl),
   by simpa using aggregator_search_decision.2.1 [{}] (by simp),
   aggregator_search_decision.2.2⟩

/-- C3 counterexample: the normalizer is not total.  A record whose
`size` field is present but `None` makes `_convert_torrent` raise a
`TypeError` from `_format_size` (the comparison `None < 1024.0`), so no
canonical record is produced. -/
theorem convert_torrent_raises_on_null_size :
    (convert_torrent rawNullSize).toOption = Option.none := rfl

/-- C3 (amended): the normalizer is total on every raw record whose
`size` field, when present, is an integer — every absent or `None`-valued
field other than `size` is replaced by its default rather than dropping
the record or propagating failure. -/
theorem convert_torrent_total (t : RawTorrent) (h : sizeIsNumeric t.size = true) :
    ∃ k, convert_torrent t = .ok k := by
  unfold convert_torrent
  cases ht : t.size with
  | none => exact ⟨_, rfl⟩
  | some v =>
    cases v with
    | int n => exact ⟨_, rfl⟩
    | pyNone => rw [ht] at h; exact absurd h (by simp [sizeIsNumeric])
    | str s => rw [ht] at h; exact absurd h (by simp [sizeIsNumeric])
    | list xs => rw [ht] at h; exact absurd h (by simp [sizeIsNumeric])

/-- C3 witness: a record carrying only an integer size converts. -/
theorem convert_torrent_total_witness :
    ∃ k, convert_torrent { size := some (.int 5) } = .ok k :=
  convert_torrent_total { size := some (.int 5) } rfl

/-- C4 counterexample: an unrecognized category string is passed through
unchanged by the normalizer, not mapped to `Other` — there is no lookup
table on the response path. -/
theorem category_not_mapped_to_other :
    convert_torrent rawOddCategory = .ok kOddCategory ∧
    kOddCategory.category ≠ .str "Other" :=
  ⟨rfl, by decide⟩

/-- C4 (amended): a record missing the `category` field is normalized to
category `Other` (the `.get` default); a record whose `category` field is
present keeps that value verbatim, whether or not it lies in the
canonical set. -/
theorem category_default_and_passthrough :
    (∀ (t : RawTorrent) (k : KTorrent), t.category = Option.none →
      convert_torrent t = .ok k → k.category = .str "Other") ∧
    (∀ (t : RawTorrent) (v : PyVal) (k : KTorrent), t.category = some v →
      convert_torrent t = .ok k → k.category = v) := by
  constructor
  · intro t k hc hok
    unfold convert_torrent at hok
    cases hs : convSize t.size with
    | error e => rw [hs] at hok; cases hok
    | ok str =>
      rw [hs] at hok
      cases hok
      simp [pyGet, hc]
  · intro t v k hc hok
    unfold convert_torrent at hok
    cases hs : convSize t.size with
    | error e => rw [hs] at hok; cases hok
    | ok str =>
      rw [hs] at hok
      cases hok
      simp [pyGet, hc]

/-- C4 witness: the amended rule at concrete records — a missing category
defaults to `Other`, a present out-of-set category passes through. -/
theorem category_default_and_passthrough_witness :
    kEmpty.category = .str "Other" ∧ kOddCategory.category = .str "Cartoons" :=
  ⟨category_default_and_passthrough.1 rawEmpty kEmpty rfl (by rfl),
   category_default_and_passthrough.2 rawOddCategory (.str "Cartoons") kOddCategory rfl (by rfl)⟩

/-- `div1024` is division by 1024. -/
theorem div1024_eq (q : ℚ) : div1024 q = q / 1024 := by
  unfold div1024
  rw [Rat.mkRat_eq_div]
  push_cast
  rw [div_mul_eq_div_div]
  congr 1
  exact Rat.num_div_den q

/-- `mul100` is multiplication by 100. -/
theorem mul100_eq (q : ℚ) : mul100 q = q * 100 := by
  unfold mul100
  rw [Rat.mkRat_eq_div]
  push_cast
  rw [mul_div_right_comm, Rat.num_div_den]

/-- The `r2` value inside `roundHalfEven` is twice the fractional part. -/
theorem roundTwice_eq (q : ℚ) :
    mkRat (2 * (q.num - ⌊q⌋ * q.den)) q.den = 2 * (q - ⌊q⌋) := by
  have hden : (q.den : ℚ) ≠ 0 := Nat.cast_ne_zero.mpr q.den_nz
  rw [Rat.mkRat_eq_div]
  push_cast
  rw [mul_div_assoc]
  congr 1
  rw [sub_div, Rat.num_div_den, mul_div_cancel_right₀ _ hden]

/-- C8: timestamp normalization.  The `added` field is parsed as ISO-8601
after the trailing-`Z` rewrite and rendered as `YYYY-MM-DD HH:MM`; when
the field is missing, is not a string, or fails to parse, the rendered
time is the literal `"Unknown"`, and the conversion never fails on the
timestamp. -/
theorem timestamp_normalization :
    convTime Option.none = "Unknown" ∧
    convTime (some .pyNone) = "Unknown" ∧
    (∀ s : String, fromisoformat (replaceZ s) = Option.none →
      convTime (some (.str s)) = "Unknown") ∧
    (∀ (s : String) (dt : PyDateTime), fromisoformat (replaceZ s) = some dt →
      convTime (some (.str s)) = strftime_ymd_hm dt) ∧
    convTime (some (.str "2023-08-09T22:31:04.021Z")) = "2023-08-09 22:31" ∧
    convTime (some (.str "not a timestamp")) = "Unknown" ∧
    (∀ (t : RawTorrent) (k : KTorrent), t.added = Option.none →
      convert_torrent t = .ok k → k.time = "Unknown") := by
  refine ⟨rfl, rfl, ?_, ?_, by decide, rfl, ?_⟩
  · intro s h
    simp [convTime, pyGet, h]
  · intro s dt h
    simp [convTime, pyGet, h]
  · intro t k ha hok
    unfold convert_torrent at hok
    cases hs : convSize t.size with
    | error e => rw [hs] at hok; cases hok
    | ok str =>
      rw [hs] at hok
      cases hok
      simp [convTime, pyGet, ha, fromisoformat, replaceZ, parse4]

/-- C8 witness: the parse-success and parse-failure branches of the
timestamp rule at concrete inputs. -/
theorem timestamp_normalization_witness :
    convTime (some (.str "nope")) = "Unknown" ∧
    convTime (some (.str "2024-06-01T12:30:45Z")) =
      strftime_ymd_hm ⟨2024, 6, 1, 12, 30, 45, 0⟩ ∧
    kEmpty.time = "Unknown" :=
  ⟨timestamp_normalization.2.2.1 "nope" (by decide),
   timestamp_normalization.2.2.2.1 "2024-06-01T12:30:45Z" ⟨2024, 6, 1, 12, 30, 45, 0⟩
     (by decide),
   timestamp_normalization.2.2.2.2.2.2 rawEmpty kEmpty rfl (by rfl)⟩

/-- C9: the aggregator request mapping.  Unrecognized or absent category
maps to `ALL`, unrecognized or absent sort maps to `SEEDERS`, order maps
through its table, and an absent, empty, or entirely-unrecognized
provider list maps to all known providers, while recognized names map
through the table. -/
theorem aggregator_request_mapping :
    (∀ c : String, dictContains category_mapping c = false →
      api_category (some c) = "ALL") ∧
    api_category Option.none = "ALL" ∧
    api_category (some "Movies/TV") = "VIDEO" ∧
    (∀ s : String, dictContains sort_mapping s = false →
      api_sort (some s) = "SEEDERS") ∧
    api_sort Option.none = "SEEDERS" ∧
    api_sort (some "time") = "ADDED" ∧
    api_order "asc" = "ASCENDING" ∧
    api_order "desc" = "DESCENDING" ∧
    api_providers Option.none = ["PIRATEBAY", "YTS", "BITSEARCH"] ∧
    api_providers (some []) = ["PIRATEBAY", "YTS", "BITSEARCH"] ∧
    (∀ ps : List String, (∀ p ∈ ps, dictContains provider_mapping p = false) →
      api_providers (some ps) = ["PIRATEBAY", "YTS", "BITSEARCH"]) ∧
    api_providers (some ["BitSearch", "YTS"]) = ["BITSEARCH", "YTS"] := by
  refine ⟨?_, rfl, rfl, ?_, rfl, rfl, rfl, rfl, rfl, rfl, ?_, rfl⟩
  · intro c hc
    by_cases h0 : c = ""
    · simp [api_category, pyTruthy, h0]
    · have hfind : (category_mapping.find? (fun p => p.1 == c)) = Option.none := by
        cases hf : category_mapping.find? (fun p => p.1 == c) with
        | none => rfl
        | some p => rw [dictContains, hf] at hc; cases hc
      simp [api_category, pyTruthy, h0, dictGet, hfind]
  · intro s hs
    by_cases h0 : s = ""
    · simp [api_sort, pyTruthy, h0]
    · have hfind : (sort_mapping.find? (fun p => p.1 == s)) = Option.none := by
        cases hf : sort_mapping.find? (fun p => p.1 == s) with
        | none => rfl
        | some p => rw [dictContains, hf] at hs; cases hs
      simp [api_sort, pyTruthy, h0, dictGet, hfind]
  · intro ps hps
    have hfilter : ps.filter (fun p => dictContains provider_mapping p) = [] := by
      rw [List.filter_eq_nil_iff]
      intro p hp
      rw [hps p hp]
      exact Bool.false_ne_true
    by_cases h0 : ps = []
    · subst h0
      rfl
    · have hmapped : (ps.filter (fun p => dictContains provider_mapping p)).map
          (fun p => dictGet provider_mapping p p) = [] := by
        rw [hfilter]
        rfl
      simp only [api_providers, hmapped]
      simp [h0, provider_mapping]

/-- C9 witness: a concrete unrecognized category and sort, and a provider
list containing only unrecognized names, all hit the documented
defaults. -/
theorem aggregator_request_mapping_witness :
    api_category (some "Cartoons") = "ALL" ∧
    api_sort (some "uploaded") = "SEEDERS" ∧
    api_providers (some ["RARBG", "Nyaa"]) = ["PIRATEBAY", "YTS", "BITSEARCH"] :=
  ⟨aggregator_request_mapping.1 "Cartoons" (by decide),
   aggregator_request_mapping.2.2.2.1 "uploaded" (by decide),
   aggregator_request_mapping.2.2.2.2.2.2.2.2.2.2.1 ["RARBG", "Nyaa"] (by decide)⟩

/-- The division loop of `_format_size` selects the unit whose 1024-power
bracket contains the value: with `k` units still unconsumed it prints
`q / 1024^k` under the `k`-th remaining unit when `1024^k ≤ q <
1024^(k+1)`, and prints `q / 1024^(#units)` in `PB` once `q` is at least
`1024^(#units)`. -/
theorem formatSizeAux_spec (us : List String) : ∀ (q : ℚ), 0 ≤ q →
    ((∀ k : ℕ, k < us.length → (1024:ℚ)^k ≤ q → q < 1024^(k+1) →
      formatSizeAux us q = formatTwoDec (q / 1024^k) ++ " " ++ us.getD k "") ∧
     ((1024:ℚ)^us.length ≤ q →
      formatSizeAux us q = formatTwoDec (q / 1024^us.length) ++ " PB")) := by
  induction us with
  | nil =>
    intro q _
    constructor
    · intro k hk
      exact absurd hk (Nat.not_lt_zero k)
    · intro _
      simp [formatSizeAux]
  | cons u us ih =>
    intro q hq
    have h1024 : (0:ℚ) < 1024 := by norm_num
    constructor
    · intro k hk hlo hhi
      cases k with
      | zero =>
        rw [pow_zero] at hlo
        rw [zero_add, pow_one] at hhi
        simp only [formatSizeAux, if_pos hhi]
        rw [pow_zero, div_one, List.getD_cons_zero]
      | succ k =>
        have hge : (1024:ℚ) ≤ q :=
          le_trans (le_self_pow₀ (by norm_num) (Nat.succ_ne_zero k)) hlo
        simp only [formatSizeAux, if_neg (not_lt.mpr hge)]
        rw [div1024_eq]
        have hrec := (ih (q / 1024) (div_nonneg hq (by norm_num))).1 k
          (Nat.lt_of_succ_lt_succ hk)
          (by rw [le_div_iff₀ h1024, ← pow_succ]; exact hlo)
          (by rw [div_lt_iff₀ h1024, ← pow_succ]; exact hhi)
        rw [hrec, div_div, ← pow_succ', List.getD_cons_succ]
    · intro hlen
      have hge : (1024:ℚ) ≤ q :=
        le_trans (le_self_pow₀ (by norm_num) (by simp)) hlen
      simp only [formatSizeAux, if_neg (not_lt.mpr hge)]
      rw [div1024_eq]
      have hrec := (ih (q / 1024) (div_nonneg hq (by norm_num))).2
        (by rw [le_div_iff₀ h1024, ← pow_succ]; exact hlen)
      rw [hrec, div_div, ← pow_succ']
      rfl

/-- C7: `_format_size` divides repeatedly by 1024, escalating the unit
`B→KB→MB→GB→TB→PB`, prints two decimal places, and in particular formats
`0`, `1536` and `1024^5` as documented; the suffix printed for a byte
count `B` is the unit of `B`'s 1024-power magnitude bracket, so parsing
the suffix back recovers the magnitude order. -/
theorem format_size_spec :
    format_size 0 = "0.00 B" ∧
    format_size 1536 = "1.50 KB" ∧
    format_size 1125899906842624 = "1.00 PB" ∧
    (∀ B k : ℕ, k < 5 → (1024:ℚ)^k ≤ (B:ℚ) → (B:ℚ) < 1024^(k+1) →
      format_size (B:ℚ) = formatTwoDec ((B:ℚ) / 1024^k) ++ " " ++ sizeUnits.getD k "") ∧
    (∀ B : ℕ, (1024:ℚ)^5 ≤ (B:ℚ) →
      format_size (B:ℚ) = formatTwoDec ((B:ℚ) / 1024^5) ++ " PB") := by
  refine ⟨by decide, by decide, by decide, ?_, ?_⟩
  · intro B k hk hlo hhi
    exact (formatSizeAux_spec sizeUnits (B:ℚ) (by positivity)).1 k hk hlo hhi
  · intro B hlen
    exact (formatSizeAux_spec sizeUnits (B:ℚ) (by positivity)).2 hlen

/-- C7 witness: the unit law applied at `B = 2048` (bracket `KB`) and at
`B = 1024^5 + 17` (the terminal `PB` case). -/
theorem format_size_spec_witness :
    format_size ((2048:ℕ):ℚ) =
      formatTwoDec (((2048:ℕ):ℚ) / 1024^1) ++ " " ++ sizeUnits.getD 1 "" ∧
    format_size ((1125899906842641:ℕ):ℚ) =
      formatTwoDec (((1125899906842641:ℕ):ℚ) / 1024^5) ++ " PB" :=
  ⟨format_size_spec.2.2.2.1 2048 1 (by norm_num) (by norm_num) (by norm_num),
   format_size_spec.2.2.2.2 1125899906842641 (by norm_num)⟩

end Korrent
